import Mathlib

/-!
# Verification of the Snake game state engine

A shallow embedding of the game-state core of `src/main.py` (class
`SnakeGame`): the per-tick transition (`_update_game_state`), collision
detection (`_check_collision`), direction handling (`_key_to_direction`,
`_is_valid_direction` as used by `_handle_input`), food placement
(`_spawn_food`) and state reset (`reset_game`).

Cells are integer coordinate pairs (Python ints are unbounded, and the
head coordinate may go negative on a wall hit, so we use `Int`).
Randomness (`random.randrange(0, bound, step)`) is modelled by threading
an explicit pair of natural-number draws, reduced modulo the number of
grid columns/rows, so every random outcome is a concrete input.
-/

namespace SnakeGame

/-- A grid coordinate pair, as in the Python tuples `(x, y)`. -/
abbrev Cell := Int × Int

/-- `GameConfig.WIDTH` in `src/main.py`. -/
def WIDTH : Int := 600

/-- `GameConfig.HEIGHT` in `src/main.py`. -/
def HEIGHT : Int := 400

/-- `GameConfig.BLOCK_SIZE` in `src/main.py`. -/
def BLOCK_SIZE : Int := 20

/-- Number of distinct x-positions `random.randrange(0, 600, 20)` can return. -/
def GRID_COLS : Nat := 30

/-- Number of distinct y-positions `random.randrange(0, 400, 20)` can return. -/
def GRID_ROWS : Nat := 20

/-- The mutable state of `SnakeGame` that the core logic touches:
`self.snake` (head first), `self.direction`, `self.food_pos`,
`self.score`, `self.game_over`. -/
structure GameState where
  snake : List Cell
  direction : Cell
  food_pos : Cell
  score : Nat
  game_over : Bool
deriving Repr, DecidableEq

/-- `SnakeGame._spawn_food`: returns
`(random.randrange(0, WIDTH, BLOCK_SIZE), random.randrange(0, HEIGHT, BLOCK_SIZE))`.
The random source is modelled as a pair of natural draws; `randrange(0, 600, 20)`
yields `20 * k` for a uniformly chosen `k < 30`, embedded here as `r.1 % 30`.
Note the source consults neither the snake nor any board-full condition. -/
def spawn_food (r : Nat × Nat) : Cell :=
  (BLOCK_SIZE * ((r.1 % GRID_COLS : Nat) : Int),
   BLOCK_SIZE * ((r.2 % GRID_ROWS : Nat) : Int))

/-- `SnakeGame.reset_game`: snake `[(WIDTH // 2, HEIGHT // 2)] = [(300, 200)]`,
direction `(BLOCK_SIZE, 0)`, fresh food, score 0, game_over False. -/
def reset_game (r : Nat × Nat) : GameState :=
  { snake := [(300, 200)]
  , direction := (BLOCK_SIZE, 0)
  , food_pos := spawn_food r
  , score := 0
  , game_over := false }

/-- The wall test of `SnakeGame._check_collision`:
`x < 0 or x >= WIDTH or y < 0 or y >= HEIGHT`. -/
def out_of_bounds (c : Cell) : Prop :=
  c.1 < 0 ∨ c.1 ≥ WIDTH ∨ c.2 < 0 ∨ c.2 ≥ HEIGHT

instance (c : Cell) : Decidable (out_of_bounds c) := by
  unfold out_of_bounds WIDTH HEIGHT
  infer_instance

/-- `SnakeGame._check_collision(head)`: wall test first, then
`head in self.snake` — membership in the FULL current snake list
(the tail is not excluded, and the check runs before the head is inserted). -/
def check_collision (s : GameState) (head : Cell) : Bool :=
  if out_of_bounds head then true
  else if head ∈ s.snake then true
  else false

/-- The kind of collision, read off from the branch order of
`_check_collision` (wall is tested first, so an out-of-bounds head is a
wall collision even if it would also match the body). -/
inductive CollisionKind where
  | wall : CollisionKind
  | body : CollisionKind
deriving Repr, DecidableEq

/-- Which branch of `_check_collision` fires, if any; a direct restatement
of `check_collision` recording the branch taken. -/
def collision_kind (s : GameState) (head : Cell) : Option CollisionKind :=
  if out_of_bounds head then some CollisionKind.wall
  else if head ∈ s.snake then some CollisionKind.body
  else none

/-- The new head computed at the top of `_update_game_state`:
`(self.snake[0][0] + self.direction[0], self.snake[0][1] + self.direction[1])`.
The Python indexing `self.snake[0]` presupposes a nonempty snake (an
invariant of the game, established by `reset_game`); `headD` with an
arbitrary default keeps the embedding total. -/
def new_head (s : GameState) : Cell :=
  ((s.snake.headD (0, 0)).1 + s.direction.1,
   (s.snake.headD (0, 0)).2 + s.direction.2)

/-- `SnakeGame._update_game_state`: compute the new head; on collision set
`game_over` and return (no other mutation); otherwise insert the head at
index 0, then either eat (`score += 1`, respawn food, tail retained) or
move (`self.snake.pop()`, i.e. drop the last element). -/
def update_game_state (s : GameState) (r : Nat × Nat) : GameState :=
  let nh := new_head s
  if check_collision s nh then
    { s with game_over := true }
  else if nh = s.food_pos then
    { s with snake := nh :: s.snake
           , score := s.score + 1
           , food_pos := spawn_food r }
  else
    { s with snake := (nh :: s.snake).dropLast }

/-- Modelled from the spec: the session loop (`SnakeGame.run`) is absent
from the source file (the method is called from `main` but never defined
in `src/main.py`). Per the spec, GameOver is terminal — "no further
simulation ticks are processed" once the phase is GameOver, so the
session-level tick invokes `_update_game_state` only while the game is
not over. -/
def tick (s : GameState) (r : Nat × Nat) : GameState :=
  if s.game_over then s else update_game_state s r

/-- A sequence of session ticks, one random draw per tick. -/
def run_ticks (s : GameState) : List (Nat × Nat) → GameState
  | [] => s
  | r :: rs => run_ticks (tick s r) rs

/-- The raw key presses the game reacts to (`pygame.K_UP` etc.); any other
key maps to `other`. -/
inductive Key where
  | up : Key
  | down : Key
  | left : Key
  | right : Key
  | other : Key
deriving Repr, DecidableEq

/-- `SnakeGame._key_to_direction`: the `key_map` dictionary lookup,
`None` for unmapped keys. -/
def key_to_direction : Key → Option Cell
  | Key.up => some (0, -BLOCK_SIZE)
  | Key.down => some (0, BLOCK_SIZE)
  | Key.left => some (-BLOCK_SIZE, 0)
  | Key.right => some (BLOCK_SIZE, 0)
  | Key.other => none

/-- `SnakeGame._is_valid_direction`: the requested direction is accepted
iff it differs from the exact opposite of the current direction. There is
no snake-length condition in the source. -/
def is_valid_direction (s : GameState) (d : Cell) : Bool :=
  d ≠ (-s.direction.1, -s.direction.2)

/-- One `KEYDOWN` event in `SnakeGame._handle_input`: translate the key;
if it maps to a direction and `_is_valid_direction` accepts it, update
`self.direction`; otherwise leave the state unchanged. -/
def handle_keydown (s : GameState) (k : Key) : GameState :=
  match key_to_direction k with
  | none => s
  | some d => if is_valid_direction s d then { s with direction := d } else s

/-- Both coordinates are integer multiples of the 20-pixel cell size. -/
def aligned (c : Cell) : Prop :=
  c.1 % BLOCK_SIZE = 0 ∧ c.2 % BLOCK_SIZE = 0

instance (c : Cell) : Decidable (aligned c) := by
  unfold aligned
  infer_instance

/-- The direction is one of the four axis-aligned vectors (±20, 0), (0, ±20). -/
def dir_ok (d : Cell) : Prop :=
  d = (BLOCK_SIZE, 0) ∨ d = (-BLOCK_SIZE, 0) ∨
  d = (0, BLOCK_SIZE) ∨ d = (0, -BLOCK_SIZE)

instance (d : Cell) : Decidable (dir_ok d) := by
  unfold dir_ok
  infer_instance

/-- The grid-alignment invariant: axis-aligned direction, all snake cells
and the food position grid-aligned. -/
def Invariant (s : GameState) : Prop :=
  dir_ok s.direction ∧ (∀ c ∈ s.snake, aligned c) ∧ aligned s.food_pos

instance (s : GameState) : Decidable (Invariant s) := by
  unfold Invariant
  infer_instance

/-- The full board: every grid-aligned cell of the 30 × 20 grid. -/
def fullBoard : List Cell :=
  (List.range GRID_COLS).flatMap fun (i : Nat) =>
    (List.range GRID_ROWS).map fun (j : Nat) =>
      (BLOCK_SIZE * (i : Int), BLOCK_SIZE * (j : Int))

/-- A length-2 snake moving right whose new head `(40, 200)` is exactly the
current tail cell; the food is elsewhere, so this is a non-growth step. -/
def sTail : GameState :=
  { snake := [(20, 200), (40, 200)]
  , direction := (BLOCK_SIZE, 0)
  , food_pos := (100, 100)
  , score := 0
  , game_over := false }

/-- A length-1 snake moving right (the reset configuration with fixed food). -/
def sLen1 : GameState :=
  { snake := [(300, 200)]
  , direction := (BLOCK_SIZE, 0)
  , food_pos := (100, 100)
  , score := 0
  , game_over := false }

/-- A length-1 snake one step away from the food at `(320, 200)`. -/
def sEat : GameState :=
  { snake := [(300, 200)]
  , direction := (BLOCK_SIZE, 0)
  , food_pos := (320, 200)
  , score := 0
  , game_over := false }

/-- A snake at the right edge moving right: the new head `(600, 200)` is out
of bounds. -/
def sWall : GameState :=
  { snake := [(580, 200)]
  , direction := (BLOCK_SIZE, 0)
  , food_pos := (0, 0)
  , score := 0
  , game_over := false }

/-- A state whose game is already over. -/
def sOver : GameState :=
  { snake := [(300, 200)]
  , direction := (BLOCK_SIZE, 0)
  , food_pos := (100, 100)
  , score := 5
  , game_over := true }

/-- A state whose snake occupies every cell of the grid. -/
def sFull : GameState :=
  { snake := fullBoard
  , direction := (BLOCK_SIZE, 0)
  , food_pos := (0, 0)
  , score := 599
  , game_over := false }

/-! ## Helper lemmas -/

/-- `_spawn_food` always returns a grid-aligned cell: both coordinates are
`BLOCK_SIZE` times a natural number. -/
theorem spawn_food_aligned (r : Nat × Nat) : aligned (spawn_food r) := by
  unfold spawn_food aligned BLOCK_SIZE
  exact ⟨Int.mul_emod_right _ _, Int.mul_emod_right _ _⟩

/-- A single session tick never decreases the score. -/
theorem score_le_tick (s : GameState) (r : Nat × Nat) : s.score ≤ (tick s r).score := by
  unfold tick update_game_state
  dsimp only
  split
  · exact le_refl _
  · split
    · exact le_refl _
    · split
      · exact Nat.le_succ _
      · exact le_refl _

/-- The score is non-decreasing along any sequence of session ticks. -/
theorem run_ticks_score_mono (s : GameState) (rs : List (Nat × Nat)) :
    s.score ≤ (run_ticks s rs).score := by
  induction rs generalizing s with
  | nil => exact le_refl _
  | cons r rs ih => exact le_trans (score_le_tick s r) (ih (tick s r))

/-- Adding two aligned offsets keeps a cell aligned. -/
theorem aligned_add (h d : Cell) (ha : aligned h) (hd : aligned d) :
    aligned (h.1 + d.1, h.2 + d.2) := by
  unfold aligned BLOCK_SIZE at *
  omega

/-- Each of the four legal directions is itself grid-aligned. -/
theorem dir_ok_aligned (d : Cell) (hd : dir_ok d) : aligned d := by
  rcases hd with h | h | h | h <;> subst h <;> decide

/-- If every snake cell is aligned, so is the (defaulted) head. -/
theorem headD_aligned (s : GameState) (hs : ∀ c ∈ s.snake, aligned c) :
    aligned (s.snake.headD (0, 0)) := by
  cases hsn : s.snake with
  | nil => decide
  | cons a l => exact hs a (hsn ▸ List.mem_cons_self a l)

/-- Every cell of the form `(20 i, 20 j)` with `i < 30`, `j < 20` is a
member of `fullBoard`. -/
theorem mem_fullBoard (i j : Nat) (hi : i < GRID_COLS) (hj : j < GRID_ROWS) :
    (BLOCK_SIZE * (i : Int), BLOCK_SIZE * (j : Int)) ∈ fullBoard := by
  unfold fullBoard
  apply List.mem_flatMap.mpr
  refine ⟨i, List.mem_range.mpr hi, ?_⟩
  exact List.mem_map_of_mem _ (List.mem_range.mpr hj)

/-- The session tick preserves the grid-alignment invariant. -/
theorem invariant_tick (s : GameState) (r : Nat × Nat) (hs : Invariant s) :
    Invariant (tick s r) := by
  obtain ⟨hdir, hsnake, hfood⟩ := hs
  unfold tick update_game_state
  dsimp only
  split
  · exact ⟨hdir, hsnake, hfood⟩
  · have hnh : aligned (new_head s) := by
      unfold new_head
      exact aligned_add _ _ (headD_aligned s hsnake) (dir_ok_aligned _ hdir)
    split
    · exact ⟨hdir, hsnake, hfood⟩
    · split
      · refine ⟨hdir, ?_, spawn_food_aligned r⟩
        intro c hc
        rcases List.mem_cons.mp hc with h | h
        · exact h ▸ hnh
        · exact hsnake c h
      · refine ⟨hdir, ?_, hfood⟩
        intro c hc
        rcases List.mem_cons.mp ((List.dropLast_sublist _).subset hc) with h | h
        · exact h ▸ hnh
        · exact hsnake c h

/-! ## Claim theorems -/

/-- Claim C1, counterexample: the claim says that on a non-growth step a new
head equal to the current tail cell never causes game over (for any snake of
length ≥ 2). In the source, `_check_collision` tests `head in self.snake`
against the full pre-move body, tail included: for the length-2 snake
`[(20, 200), (40, 200)]` moving right, the new head `(40, 200)` equals the
current tail, the step is non-growing (food at `(100, 100)`), and the tick
ends in game over. -/
theorem tail_cell_causes_game_over_cex :
    sTail.snake.length = 2 ∧
    new_head sTail = (40, 200) ∧
    sTail.snake.getLast? = some (40, 200) ∧
    new_head sTail ≠ sTail.food_pos ∧
    (update_game_state sTail (0, 0)).game_over = true := by
  decide

/-- Claim C1, amended: self-collision during a tick is tested against the
snake's full pre-move body — the current tail cell is NOT excluded on a
non-growth step (so a new head equal to the current tail causes game over),
and growth steps likewise test against the full body. Formally: for an
in-bounds new head, the tick ends in game over iff the new head is a member
of the full current snake list. -/
theorem self_collision_full_body (s : GameState) (r : Nat × Nat)
    (h : s.game_over = false) (hb : ¬ out_of_bounds (new_head s)) :
    (update_game_state s r).game_over = true ↔ new_head s ∈ s.snake := by
  unfold update_game_state check_collision
  dsimp only
  by_cases hm : new_head s ∈ s.snake
  · simp [hb, hm]
  · simp only [hb, hm, if_false, ite_false, if_true, ite_true, ite_self,
      decide_False, Bool.false_eq_true]
    split <;> simp [h, hm]

/-- Witness for `self_collision_full_body` at the concrete state `sTail`. -/
theorem self_collision_full_body_witness :
    (update_game_state sTail (0, 0)).game_over = true :=
  (self_collision_full_body sTail (0, 0) rfl (by decide)).mpr (by decide)

/-- Claim C2, counterexample: the claim says a snake of length 1 requesting
the exact opposite direction has its direction updated. In the source,
`_is_valid_direction` rejects the exact opposite with no length condition:
the length-1 snake `sLen1` moving right, on a Left key press (the exact
opposite), keeps direction `(20, 0)`. -/
theorem length_one_reversal_rejected_cex :
    sLen1.snake.length = 1 ∧
    key_to_direction Key.left = some (-sLen1.direction.1, -sLen1.direction.2) ∧
    (handle_keydown sLen1 Key.left).direction = (20, 0) ∧
    ((20, 0) : Cell) ≠ (-BLOCK_SIZE, 0) := by
  decide

/-- Claim C2, amended: setting a direction is a no-op exactly when the
requested direction is the exact opposite of the current direction,
REGARDLESS of the snake's length; otherwise the current direction is updated
to the requested direction. -/
theorem direction_noop_iff_opposite (s : GameState) (k : Key) (d : Cell)
    (hk : key_to_direction k = some d) :
    (d = (-s.direction.1, -s.direction.2) → handle_keydown s k = s) ∧
    (d ≠ (-s.direction.1, -s.direction.2) → (handle_keydown s k).direction = d) := by
  unfold handle_keydown is_valid_direction
  rw [hk]
  constructor
  · intro hop
    simp [hop]
  · intro hop
    simp [hop]

/-- Witness for `direction_noop_iff_opposite`: the Left key on `sLen1`
(moving right) is a no-op. -/
theorem direction_noop_iff_opposite_witness :
    handle_keydown sLen1 Key.left = sLen1 :=
  (direction_noop_iff_opposite sLen1 Key.left (-BLOCK_SIZE, 0) rfl).1 (by decide)

/-- Claim C3, counterexample: the claim says the food-spawning operation
never returns a cell occupied by the snake when a free cell exists. The
source's `_spawn_food` samples a random grid cell without consulting the
snake: with random draws `(15, 10)` it returns `(300, 200)`, which is
occupied by the snake of `sLen1`, although the in-bounds cell `(0, 0)` is
free. -/
theorem spawn_food_on_snake_cex :
    spawn_food (15, 10) = (300, 200) ∧
    spawn_food (15, 10) ∈ sLen1.snake ∧
    ¬ out_of_bounds ((0 : Int), (0 : Int)) ∧
    ((0 : Int), (0 : Int)) ∉ sLen1.snake := by
  decide

/-- Claim C3, amended: the food-spawning operation returns a cell within the
grid bounds and grid-aligned, but performs no occupancy check — the result
may lie on the snake. -/
theorem spawn_food_in_bounds_aligned (r : Nat × Nat) :
    0 ≤ (spawn_food r).1 ∧ (spawn_food r).1 < WIDTH ∧
    0 ≤ (spawn_food r).2 ∧ (spawn_food r).2 < HEIGHT ∧
    aligned (spawn_food r) := by
  have h1 : r.1 % GRID_COLS < 30 := Nat.mod_lt _ (show 0 < GRID_COLS by decide)
  have h2 : r.2 % GRID_ROWS < 20 := Nat.mod_lt _ (show 0 < GRID_ROWS by decide)
  refine ⟨?_, ?_, ?_, ?_, spawn_food_aligned r⟩ <;>
    · simp only [spawn_food, WIDTH, HEIGHT, BLOCK_SIZE]
      omega

set_option maxRecDepth 4000 in
/-- Claim C4, counterexample: the claim says the implementation detects the
board-full condition (snake cells = total grid cells) before spawning and
signals a distinct board-full outcome. The source's `_spawn_food` performs
no such check: with the snake occupying all 600 grid cells, spawning
proceeds and returns a cell occupied by the snake, with no distinct
outcome of any kind. -/
theorem spawn_no_board_full_signal_cex :
    sFull.snake.length = GRID_COLS * GRID_ROWS ∧
    spawn_food (0, 0) ∈ sFull.snake := by
  exact ⟨by rfl, by decide⟩

/-- Claim C4, amended: the implementation performs no board-full detection:
`_spawn_food` is a single unconditioned random sample (so it never loops
forever, but also never signals board-full), and when the snake fills the
board every possible spawn result is a cell occupied by the snake. -/
theorem spawn_full_board_occupied (r : Nat × Nat) :
    spawn_food r ∈ sFull.snake :=
  mem_fullBoard (r.1 % GRID_COLS) (r.2 % GRID_ROWS)
    (Nat.mod_lt _ (show 0 < GRID_COLS by decide))
    (Nat.mod_lt _ (show 0 < GRID_ROWS by decide))

/-- Claim C5: for a playing state, the tick ends in a wall-collision game
over (the wall branch of `_check_collision` fires, which is tested first)
iff the computed new head lies outside `[0, 600) × [0, 400)`. -/
theorem wall_collision_iff_out_of_bounds (s : GameState) (r : Nat × Nat)
    (_hplay : s.game_over = false) :
    ((update_game_state s r).game_over = true ∧
      collision_kind s (new_head s) = some CollisionKind.wall) ↔
    ((new_head s).1 < 0 ∨ (new_head s).1 ≥ 600 ∨
     (new_head s).2 < 0 ∨ (new_head s).2 ≥ 400) := by
  by_cases hb : out_of_bounds (new_head s)
  · have hb' : (new_head s).1 < 0 ∨ (new_head s).1 ≥ 600 ∨
        (new_head s).2 < 0 ∨ (new_head s).2 ≥ 400 := hb
    have hg : (update_game_state s r).game_over = true := by
      unfold update_game_state check_collision
      simp [hb]
    have hk : collision_kind s (new_head s) = some CollisionKind.wall := by
      unfold collision_kind
      simp [hb]
    exact iff_of_true ⟨hg, hk⟩ hb'
  · have hb' : ¬ ((new_head s).1 < 0 ∨ (new_head s).1 ≥ 600 ∨
        (new_head s).2 < 0 ∨ (new_head s).2 ≥ 400) := hb
    refine iff_of_false ?_ hb'
    rintro ⟨-, hk⟩
    unfold collision_kind at hk
    by_cases hm : new_head s ∈ s.snake <;> simp [hb, hm] at hk

/-- Witness for `wall_collision_iff_out_of_bounds`: the edge state `sWall`
(head `(580, 200)` moving right) hits the wall at `(600, 200)`. -/
theorem wall_collision_iff_out_of_bounds_witness :
    (update_game_state sWall (0, 0)).game_over = true ∧
    collision_kind sWall (new_head sWall) = some CollisionKind.wall :=
  (wall_collision_iff_out_of_bounds sWall (0, 0) rfl).mpr (by decide)

/-- Claim C6: on a playing, collision-free tick, the snake's length grows by
exactly 1 when the new head equals the food position, and is unchanged
otherwise. -/
theorem tick_length_change (s : GameState) (r : Nat × Nat)
    (_hplay : s.game_over = false) (hc : check_collision s (new_head s) = false) :
    (new_head s = s.food_pos →
      (update_game_state s r).snake.length = s.snake.length + 1) ∧
    (new_head s ≠ s.food_pos →
      (update_game_state s r).snake.length = s.snake.length) := by
  unfold update_game_state
  dsimp only
  rw [hc]
  simp only [Bool.false_eq_true, if_false]
  constructor
  · intro hf
    rw [if_pos hf]
    simp
  · intro hf
    rw [if_neg hf]
    simp [List.length_dropLast]

/-- Witness for `tick_length_change`: eating the food at `(320, 200)` from
`sEat` grows the snake from 1 to 2 cells. -/
theorem tick_length_change_witness :
    (update_game_state sEat (0, 0)).snake.length = sEat.snake.length + 1 :=
  (tick_length_change sEat (0, 0) rfl (by decide)).1 (by decide)

/-- Claim C7: the score is monotonically non-decreasing across any sequence
of session ticks; a collision-free tick whose new head equals the food
position increments it by exactly 1; and neither a single tick nor a
direction-key event ever decrements it. -/
theorem score_monotone_and_food_increment :
    (∀ (s : GameState) (rs : List (Nat × Nat)), s.score ≤ (run_ticks s rs).score) ∧
    (∀ (s : GameState) (r : Nat × Nat), s.game_over = false →
      check_collision s (new_head s) = false → new_head s = s.food_pos →
      (update_game_state s r).score = s.score + 1) ∧
    (∀ (s : GameState) (r : Nat × Nat), s.score ≤ (tick s r).score) ∧
    (∀ (s : GameState) (k : Key), (handle_keydown s k).score = s.score) := by
  refine ⟨run_ticks_score_mono, ?_, score_le_tick, ?_⟩
  · intro s r h hc hf
    unfold update_game_state
    dsimp only
    rw [hc]
    simp only [Bool.false_eq_true, if_false]
    rw [if_pos hf]
  · intro s k
    unfold handle_keydown
    cases key_to_direction k with
    | none => rfl
    | some d =>
      dsimp only
      split <;> rfl

/-- Witness for `score_monotone_and_food_increment` at the concrete eating
state `sEat`. -/
theorem score_monotone_and_food_increment_witness :
    sEat.score ≤ (run_ticks sEat [(0, 0)]).score ∧
    (update_game_state sEat (0, 0)).score = sEat.score + 1 :=
  ⟨score_monotone_and_food_increment.1 sEat [(0, 0)],
   score_monotone_and_food_increment.2.1 sEat (0, 0) rfl (by decide) (by decide)⟩

/-- Claim C8: GameOver is terminal — a session tick requested on a state
whose game is over is a no-op: snake, food, score and the game-over flag
are all unchanged. (The session loop `run` is absent from the source; its
game-over guard is modelled from the spec, see `tick`.) -/
theorem tick_after_game_over_noop (s : GameState) (r : Nat × Nat)
    (h : s.game_over = true) : tick s r = s := by
  unfold tick
  simp [h]

/-- Witness for `tick_after_game_over_noop` at the finished state `sOver`. -/
theorem tick_after_game_over_noop_witness : tick sOver (0, 0) = sOver :=
  tick_after_game_over_noop sOver (0, 0) rfl

/-- Claim C9: when the collision check fires on a playing tick, the
transition performs no further mutation: snake, food and score keep their
pre-tick values and only the game-over flag is set. -/
theorem collision_preserves_state (s : GameState) (r : Nat × Nat)
    (_hplay : s.game_over = false) (hc : check_collision s (new_head s) = true) :
    (update_game_state s r).snake = s.snake ∧
    (update_game_state s r).food_pos = s.food_pos ∧
    (update_game_state s r).score = s.score ∧
    (update_game_state s r).game_over = true := by
  unfold update_game_state
  dsimp only
  simp [hc]

/-- Witness for `collision_preserves_state` at the wall-collision state
`sWall`. -/
theorem collision_preserves_state_witness :
    (update_game_state sWall (0, 0)).snake = sWall.snake ∧
    (update_game_state sWall (0, 0)).food_pos = sWall.food_pos ∧
    (update_game_state sWall (0, 0)).score = sWall.score ∧
    (update_game_state sWall (0, 0)).game_over = true :=
  collision_preserves_state sWall (0, 0) rfl (by decide)

/-- Claim C10: the grid-alignment invariant — the direction is one of the
four axis-aligned 20-pixel vectors and every snake cell and the food
position have both coordinates multiples of 20 — holds in the reset state
and is preserved by key translation, direction update, food spawning and
the tick transition. -/
theorem grid_alignment_invariant :
    (∀ r, Invariant (reset_game r)) ∧
    (∀ k d, key_to_direction k = some d → dir_ok d) ∧
    (∀ s k, Invariant s → Invariant (handle_keydown s k)) ∧
    (∀ r, aligned (spawn_food r)) ∧
    (∀ s r, Invariant s → Invariant (tick s r)) := by
  refine ⟨?_, ?_, ?_, spawn_food_aligned, invariant_tick⟩
  · intro r
    refine ⟨Or.inl rfl, ?_, spawn_food_aligned r⟩
    intro c hc
    have hc' : c = ((300 : Int), (200 : Int)) := by
      simpa [reset_game] using hc
    subst hc'
    decide
  · intro k d hk
    cases k
    case up => cases hk; decide
    case down => cases hk; decide
    case left => cases hk; decide
    case right => cases hk; decide
    case other => cases hk
  · intro s k hs
    obtain ⟨hdir, hsnake, hfood⟩ := hs
    unfold handle_keydown
    cases hkd : key_to_direction k with
    | none => exact ⟨hdir, hsnake, hfood⟩
    | some d =>
      dsimp only
      split
      · refine ⟨?_, hsnake, hfood⟩
        dsimp only
        cases k <;> simp [key_to_direction] at hkd <;> subst hkd <;> decide
      · exact ⟨hdir, hsnake, hfood⟩

/-- Witness for `grid_alignment_invariant`: the invariant holds at the reset
state with fixed random draws, and survives one tick. -/
theorem grid_alignment_invariant_witness :
    Invariant (reset_game (0, 0)) ∧ Invariant (tick (reset_game (0, 0)) (3, 4)) :=
  ⟨grid_alignment_invariant.1 (0, 0),
   grid_alignment_invariant.2.2.2.2 (reset_game (0, 0)) (3, 4) (by decide)⟩

end SnakeGame
